import Mathlib

/-!
Shallow embedding of the classification-and-extraction pipeline of
`src/main.py` (immigration-ocr-api): the function `process_document_function`
together with the regex-based field extractor, the ordered keyword
classifier, and the OCR-availability fallback policy.

Python strings are modelled as `List Char` (Python `len`, slicing and
`str.strip` operate on code points, as does `List Char`).  The regular
expressions of the source are concatenations of word-boundary assertions and
greedy counted character-class repetitions; they are embedded via a small
backtracking matcher (`matchToks`) with exactly Python's leftmost /
greedy-preference semantics for such patterns.  Character classes follow
Python's `re` over the ASCII range (all texts in the specification scenarios
are ASCII).
-/

namespace ImmigrationOCR

/-- Whitespace set of Python's `str.strip` and of the regex class `\s`
(ASCII range): space, tab, newline, carriage return, vertical tab, form feed. -/
def pyIsSpace (c : Char) : Bool :=
  c = ' ' || c = '\t' || c = '\n' || c = '\r' || c = '\x0b' || c = '\x0c'

/-- Python `str.strip()`: drop leading and trailing whitespace. -/
def pyStrip (l : List Char) : List Char :=
  ((l.dropWhile pyIsSpace).reverse.dropWhile pyIsSpace).reverse

/-- ASCII uppercase letter, regex class `[A-Z]`. -/
def isUpperAZ (c : Char) : Bool := 'A' ≤ c && c ≤ 'Z'

/-- ASCII lowercase letter, regex class `[a-z]`. -/
def isLowerAZ (c : Char) : Bool := 'a' ≤ c && c ≤ 'z'

/-- ASCII digit, regex class `[0-9]` / `\d`. -/
def isDigit09 (c : Char) : Bool := '0' ≤ c && c ≤ '9'

/-- ASCII letter (either case); `[A-Z]` under `re.IGNORECASE`. -/
def isAsciiLetter (c : Char) : Bool := isUpperAZ c || isLowerAZ c

/-- ASCII alphanumeric; `[A-Z0-9]` under `re.IGNORECASE`. -/
def isAlnumAscii (c : Char) : Bool := isAsciiLetter c || isDigit09 c

/-- Regex word character `\w` (ASCII range), used by the `\b` assertion. -/
def isWordChar (c : Char) : Bool := isAlnumAscii c || c = '_'

/-- Date separator class (slash or hyphen). -/
def isSepDM (c : Char) : Bool := c = '/' || c = '-'

/-- Local-part class of the email pattern, `[a-zA-Z0-9._%+-]`. -/
def isLocalChar (c : Char) : Bool :=
  isAlnumAscii c || c = '.' || c = '_' || c = '%' || c = '+' || c = '-'

/-- Domain class of the email pattern, `[a-zA-Z0-9.-]`. -/
def isDomainChar (c : Char) : Bool := isAlnumAscii c || c = '.' || c = '-'

/-- One token of the embedded regular expressions: a word-boundary assertion
`\b`, or a greedy repetition of a character class with lower bound `lo` and
optional upper bound `hi` (so `[A-Z]` is `cls isUpperAZ 1 (some 1)`,
`[a-z]+` is `cls isLowerAZ 1 none`, `\d{1,2}` is `cls isDigit09 1 (some 2)`). -/
inductive RTok where
  | boundary : RTok
  | cls (p : Char → Bool) (lo : Nat) (hi : Option Nat) : RTok

/-- Length of the maximal run of characters satisfying `p` at the head. -/
def runLen (p : Char → Bool) : List Char → Nat
  | [] => 0
  | c :: cs => if p c then runLen p cs + 1 else 0

/-- The `\b` assertion at position `i` of `s`: word-character status differs
between the previous character and the current one (out of range counts as
non-word). -/
def isBoundary (s : List Char) (i : Nat) : Bool :=
  let w : Nat → Bool := fun j =>
    match s[j]? with
    | some c => isWordChar c
    | none => false
  (if i = 0 then false else w (i - 1)) != w i

/-- First successful result of `f` over a list of candidate repetition
counts (tried in order, i.e. greedy when the list counts down). -/
def firstSome (f : Nat → Option Nat) : List Nat → Option Nat
  | [] => none
  | k :: ks =>
    match f k with
    | some e => some e
    | none => firstSome f ks

/-- Candidate repetition counts `hi, hi-1, ..., lo` (greedy order). -/
def greedyCounts (hi lo : Nat) : List Nat :=
  (List.range (hi + 1 - lo)).map (fun d => hi - d)

/-- Backtracking matcher: `matchToks s toks i = some e` when the token list
matches `s` starting at position `i` and ending at position `e`, with
Python's preference order (greedy repetitions, longer first).  For a class
repetition the only choice is how many characters of the maximal run to
consume, so trying counts from the largest down is exactly Python's
backtracking on these patterns. -/
def matchToks (s : List Char) : List RTok → Nat → Option Nat
  | [] => fun i => some i
  | RTok.boundary :: rest => fun i =>
      if isBoundary s i then matchToks s rest i else none
  | RTok.cls p lo hi :: rest => fun i =>
      let run := runLen p (s.drop i)
      let maxK := match hi with
        | some h => min run h
        | none => run
      if maxK < lo then none
      else firstSome (fun k => matchToks s rest (i + k)) (greedyCounts maxK lo)

/-- Scan for the leftmost match (Python `re.search`): try start positions
`i, i+1, ...` while fuel lasts, returning `(start, end)` of the first match. -/
def searchAux (pat : List RTok) (s : List Char) : Nat → Nat → Option (Nat × Nat)
  | 0, _ => none
  | fuel + 1, i =>
    match matchToks s pat i with
    | some e => some (i, e)
    | none => searchAux pat s fuel (i + 1)

/-- Python `re.search`: matched substring of the leftmost match, if any. -/
def reSearch (pat : List RTok) (s : List Char) : Option (List Char) :=
  (searchAux pat s (s.length + 1) 0).map (fun pr => (s.drop pr.1).take (pr.2 - pr.1))

/-- Python `re.findall` scan: all non-overlapping matches left to right,
continuing after each match's end, as `(start, end)` pairs. -/
def findallAux (pat : List RTok) (s : List Char) : Nat → Nat → List (Nat × Nat)
  | 0, _ => []
  | fuel + 1, i =>
    match matchToks s pat i with
    | some e => (i, e) :: findallAux pat s fuel (if i < e then e else i + 1)
    | none => findallAux pat s fuel (i + 1)

/-- All matches of `pat` in `s` as `(start, end)` position pairs. -/
def reFindallPos (pat : List RTok) (s : List Char) : List (Nat × Nat) :=
  findallAux pat s (s.length + 1) 0

/-- Python `re.findall` (patterns without groups): the matched substrings. -/
def reFindall (pat : List RTok) (s : List Char) : List (List Char) :=
  (reFindallPos pat s).map (fun pr => (s.drop pr.1).take (pr.2 - pr.1))

/-- Pattern `passport_number`, `r'\b[A-Z]{1,2}[0-9]{6,8}\b'`, applied with
`re.IGNORECASE` (so the letter class accepts either case). -/
def passportPat : List RTok :=
  [RTok.boundary, RTok.cls isAsciiLetter 1 (some 2),
   RTok.cls isDigit09 6 (some 8), RTok.boundary]

/-- Pattern `date`: word boundary, 1-2 digits, a slash-or-hyphen separator,
1-2 digits, a separator, exactly 4 digits, word boundary. -/
def datePat : List RTok :=
  [RTok.boundary, RTok.cls isDigit09 1 (some 2), RTok.cls isSepDM 1 (some 1),
   RTok.cls isDigit09 1 (some 2), RTok.cls isSepDM 1 (some 1),
   RTok.cls isDigit09 4 (some 4), RTok.boundary]

/-- Pattern `name`, `r'\b[A-Z][a-z]+\s+[A-Z][a-z]+\b'` (no IGNORECASE). -/
def namePat : List RTok :=
  [RTok.boundary, RTok.cls isUpperAZ 1 (some 1), RTok.cls isLowerAZ 1 none,
   RTok.cls pyIsSpace 1 none, RTok.cls isUpperAZ 1 (some 1),
   RTok.cls isLowerAZ 1 none, RTok.boundary]

/-- Pattern `visa_number`, `r'\b[A-Z0-9]{8,12}\b'` (declared in the source's
pattern table; see the extraction step for how it is used). -/
def visaPat : List RTok :=
  [RTok.boundary, RTok.cls isAlnumAscii 8 (some 12), RTok.boundary]

/-- Pattern `email`,
`r'[a-zA-Z0-9._%+-]+@[a-zA-Z0-9.-]+\.[a-zA-Z]{2,}'`, applied with
`re.IGNORECASE`. -/
def emailPat : List RTok :=
  [RTok.cls isLocalChar 1 none, RTok.cls (fun c => c = '@') 1 (some 1),
   RTok.cls isDomainChar 1 none, RTok.cls (fun c => c = '.') 1 (some 1),
   RTok.cls isAsciiLetter 2 none]

/-- Python's `word in text_lower` substring test. -/
def containsWord (tl : List Char) (w : String) : Bool :=
  decide (w.data <:+: tl)

/-- The source's confidence constant 0.9, as the exact rational 9/10 in
lowest terms (a structure literal, so that equality of results is
kernel-decidable). -/
def conf09 : ℚ := ⟨9, 10, by decide, by decide⟩

/-- The source's confidence constant 0.8 (= 4/5 in lowest terms). -/
def conf08 : ℚ := ⟨4, 5, by decide, by decide⟩

/-- The source's confidence constant 0.5 (= 1/2 in lowest terms). -/
def conf05 : ℚ := ⟨1, 2, by decide, by decide⟩

/-- Keyword list of classification rule 1 (`passport`). -/
def kw1 : List String := ["passport", "republic", "travel document"]

/-- Keyword list of classification rule 2 (`visa`). -/
def kw2 : List String := ["visa", "entry permit", "immigration"]

/-- Keyword list of classification rule 3 (`permit`). -/
def kw3 : List String := ["work permit", "employment"]

/-- Keyword list of classification rule 4 (`certificate`). -/
def kw4 : List String := ["certificate", "birth", "marriage"]

/-- Keyword list of classification rule 5 (`identification`). -/
def kw5 : List String := ["license", "identification"]

/-- Ordered keyword classifier of `process_document_function` (lines 84-103):
lower-case the text, then first-match-in-order over the five keyword rules,
returning `(doc_type, confidence)`. -/
def classifyDoc (text : List Char) : String × ℚ :=
  let tl := text.map Char.toLower
  if kw1.any (containsWord tl) then ("passport", conf09)
  else if kw2.any (containsWord tl) then ("visa", conf09)
  else if kw3.any (containsWord tl) then ("permit", conf08)
  else if kw4.any (containsWord tl) then ("certificate", conf08)
  else if kw5.any (containsWord tl) then ("identification", conf08)
  else ("unknown", conf05)

/-- The `structured_data` dictionary.  Optional keys are `Option`-valued:
`none` models absence of the key.  `visa_number` is included because the
source declares the pattern in its `patterns` table, but no statement of
`process_document_function` ever assigns the key, so the builder below
always leaves it `none`. -/
structure StructuredRecord where
  document_type : String
  extraction_date : String
  raw_text_length : Nat
  confidence : ℚ
  ocr_source : String
  tesseract_available : Bool
  passport_number : Option String
  visa_number : Option String
  dates_found : Option (List String)
  names_found : Option (List String)
  email : Option String
deriving DecidableEq, Repr

/-- The returned dictionary of `process_document_function`; `Option` fields
model presence/absence of the keys. -/
structure ProcessingResult where
  success : Bool
  document_type : Option String
  confidence : Option ℚ
  extracted_text : Option String
  structured_data : Option StructuredRecord
  error : Option String
deriving DecidableEq, Repr

/-- Classification, extraction and result assembly applied to recognized
text (lines 83-147 of the source), given the text's provenance tag `src`,
the engine-availability flag `avail`, and the processing timestamp `now`
(value of `datetime.now().isoformat()`). -/
def pipelineOnText (now : String) (text : List Char) (src : String)
    (avail : Bool) : ProcessingResult :=
  let dc := classifyDoc text
  let doc_type := dc.1
  let confidence := dc.2
  let passportNum : Option String :=
    if doc_type = "passport" then (reSearch passportPat text).map String.mk
    else none
  let dates := reFindall datePat text
  let names := reFindall namePat text
  let emailM := (reSearch emailPat text).map String.mk
  let sd : StructuredRecord :=
    { document_type := doc_type
      extraction_date := now
      raw_text_length := text.length
      confidence := confidence
      ocr_source := src
      tesseract_available := avail
      passport_number := passportNum
      visa_number := none
      dates_found := if dates.isEmpty then none
                     else some ((dates.take 3).map String.mk)
      names_found := if names.isEmpty then none
                     else some ((names.take 2).map String.mk)
      email := emailM }
  { success := true
    document_type := some doc_type
    confidence := some confidence
    extracted_text := some (String.mk ((pyStrip text).take 2000))
    structured_data := some sd
    error := none }

/-- Outcome of the environment-dependent part of a call (image decoding and
the OCR engine), the data `process_document_function` branches on:
either opening/converting the image raises (`imageError`, caught by the
outer handler), or the engine is available and both `image_to_string` calls
return (`tesseractOk t1 t2`: `t1` the primary eng+hin pass, `t2` the
English-only retry used when `t1` strips to empty), or the engine is
available but a call raises (`tesseractError`), or the engine is
unavailable (`noTesseract`).  `avail` on `imageError` records the
process-wide `TESSERACT_AVAILABLE` flag, unused on that path. -/
inductive OCRInput where
  | imageError (avail : Bool) (msg : String)
  | tesseractOk (t1 t2 : String)
  | tesseractError (msg : String)
  | noTesseract
deriving DecidableEq, Repr

/-- The fixed placeholder text of the demo path (line 80 of the source). -/
def demoText : String :=
  "REPUBLIC OF INDIA\nPASSPORT\nName: SAMPLE USER\nPassport No: A1234567\nDate of Birth: 01/01/1990\nPlace of Birth: NEW DELHI\nDate of Issue: 01/01/2020\nDate of Expiry: 01/01/2030\nPlace of Issue: MUMBAI"

/-- Diagnostic text substituted when the OCR call raises (line 76). -/
def fallbackText (msg : String) : String :=
  "OCR Error: " ++ msg ++ ". Using fallback processing."

/-- Recognized text on the tesseract path: the primary pass, or the
English-only retry when the primary pass strips to empty (lines 67-70). -/
def ocrText (t1 t2 : String) : List Char :=
  if (pyStrip t1.data).isEmpty then t2.data else t1.data

/-- The `ocr_source` tag each input kind produces (lines 72, 77, 81);
`imageError` produces no tag (the failure record has no structured data). -/
def ocrSourceOf : OCRInput → String
  | OCRInput.imageError _ _ => ""
  | OCRInput.tesseractOk _ _ => "tesseract"
  | OCRInput.tesseractError _ => "fallback"
  | OCRInput.noTesseract => "demo"

/-- The process-wide `TESSERACT_AVAILABLE` flag under each input kind. -/
def tesseractAvailOf : OCRInput → Bool
  | OCRInput.imageError b _ => b
  | OCRInput.tesseractOk _ _ => true
  | OCRInput.tesseractError _ => true
  | OCRInput.noTesseract => false

/-- The function `process_document_function` (lines 54-153): the outer
`try/except` turns an image-decoding fault into the failure record; every
other path acquires text per the OCR outcome and runs the classification /
extraction / assembly pipeline. -/
def process_document_function (now : String) (inp : OCRInput) : ProcessingResult :=
  match inp with
  | OCRInput.imageError _ msg =>
    { success := false
      document_type := none
      confidence := none
      extracted_text := none
      structured_data := none
      error := some ("Processing error: " ++ msg) }
  | OCRInput.tesseractOk t1 t2 =>
    pipelineOnText now (ocrText t1 t2) "tesseract" true
  | OCRInput.tesseractError msg =>
    pipelineOnText now (fallbackText msg).data "fallback" true
  | OCRInput.noTesseract =>
    pipelineOnText now demoText.data "demo" false

/-! ### General helper lemmas -/

/-- The classifier can only return the six fixed `(doc_type, confidence)`
pairs of the rule table. -/
theorem classifyDoc_mem (l : List Char) :
    classifyDoc l = ("passport", conf09) ∨ classifyDoc l = ("visa", conf09) ∨
    classifyDoc l = ("permit", conf08) ∨ classifyDoc l = ("certificate", conf08) ∨
    classifyDoc l = ("identification", conf08) ∨ classifyDoc l = ("unknown", conf05) := by
  simp only [classifyDoc]
  split_ifs <;> simp

/-- The confidence constant of rules 1-2 equals the literal 0.9. -/
theorem conf09_eq : conf09 = 0.9 := by
  show Rat.mk' 9 10 = 0.9
  norm_num [Rat.mk'_eq_divInt, Rat.divInt_eq_div]

/-- The confidence constant of rules 3-5 equals the literal 0.8. -/
theorem conf08_eq : conf08 = 0.8 := by
  show Rat.mk' 4 5 = 0.8
  norm_num [Rat.mk'_eq_divInt, Rat.divInt_eq_div]

/-- The fallback confidence constant equals the literal 0.5. -/
theorem conf05_eq : conf05 = 0.5 := by
  show Rat.mk' 1 2 = 0.5
  norm_num [Rat.mk'_eq_divInt, Rat.divInt_eq_div]

/-- Characters satisfying `pyIsSpace` are exactly the six ASCII whitespace
characters. -/
theorem pyIsSpace_cases {c : Char} (h : pyIsSpace c = true) :
    c = ' ' ∨ c = '\t' ∨ c = '\n' ∨ c = '\r' ∨ c = '\x0b' ∨ c = '\x0c' := by
  simp only [pyIsSpace, Bool.or_eq_true, decide_eq_true_eq] at h
  tauto

/-- Lower-casing a whitespace character leaves it whitespace. -/
theorem toLower_space {c : Char} (h : pyIsSpace c = true) :
    pyIsSpace (Char.toLower c) = true := by
  rcases pyIsSpace_cases h with rfl | rfl | rfl | rfl | rfl | rfl <;> decide

/-- A word containing a non-whitespace character is not a substring of
all-whitespace text. -/
theorem not_containsWord_of_allSpace (w : String) (c : Char) (hc : c ∈ w.data)
    (hcs : pyIsSpace c = false) {tl : List Char}
    (h : ∀ d ∈ tl, pyIsSpace d = true) :
    containsWord tl w = false := by
  simp only [containsWord, decide_eq_false_iff_not]
  intro hinf
  have hmem : c ∈ tl := hinf.subset hc
  have := h c hmem
  rw [hcs] at this
  exact Bool.false_ne_true this

/-- All-whitespace text matches none of the keyword rules: the classifier
returns `("unknown", 0.5)`. -/
theorem classify_allSpace (l : List Char) (h : ∀ c ∈ l, pyIsSpace c = true) :
    classifyDoc l = ("unknown", conf05) := by
  have htl : ∀ d ∈ l.map Char.toLower, pyIsSpace d = true := by
    intro d hd
    rcases List.mem_map.mp hd with ⟨c, hc, rfl⟩
    exact toLower_space (h c hc)
  have a1 : kw1.any (containsWord (l.map Char.toLower)) = false := by
    rw [List.any_eq_false]
    intro w hw
    fin_cases hw
    · rw [not_containsWord_of_allSpace _ 'p' (by decide) (by decide) htl]
      decide
    · rw [not_containsWord_of_allSpace _ 'r' (by decide) (by decide) htl]
      decide
    · rw [not_containsWord_of_allSpace _ 't' (by decide) (by decide) htl]
      decide
  have a2 : kw2.any (containsWord (l.map Char.toLower)) = false := by
    rw [List.any_eq_false]
    intro w hw
    fin_cases hw
    · rw [not_containsWord_of_allSpace _ 'v' (by decide) (by decide) htl]
      decide
    · rw [not_containsWord_of_allSpace _ 'e' (by decide) (by decide) htl]
      decide
    · rw [not_containsWord_of_allSpace _ 'i' (by decide) (by decide) htl]
      decide
  have a3 : kw3.any (containsWord (l.map Char.toLower)) = false := by
    rw [List.any_eq_false]
    intro w hw
    fin_cases hw
    · rw [not_containsWord_of_allSpace _ 'w' (by decide) (by decide) htl]
      decide
    · rw [not_containsWord_of_allSpace _ 'e' (by decide) (by decide) htl]
      decide
  have a4 : kw4.any (containsWord (l.map Char.toLower)) = false := by
    rw [List.any_eq_false]
    intro w hw
    fin_cases hw
    · rw [not_containsWord_of_allSpace _ 'c' (by decide) (by decide) htl]
      decide
    · rw [not_containsWord_of_allSpace _ 'b' (by decide) (by decide) htl]
      decide
    · rw [not_containsWord_of_allSpace _ 'm' (by decide) (by decide) htl]
      decide
  have a5 : kw5.any (containsWord (l.map Char.toLower)) = false := by
    rw [List.any_eq_false]
    intro w hw
    fin_cases hw
    · rw [not_containsWord_of_allSpace _ 'l' (by decide) (by decide) htl]
      decide
    · rw [not_containsWord_of_allSpace _ 'i' (by decide) (by decide) htl]
      decide
  simp [classifyDoc, a1, a2, a3, a4, a5]

/-- Stripping all-whitespace text yields the empty text. -/
theorem pyStrip_allSpace (l : List Char) (h : ∀ c ∈ l, pyIsSpace c = true) :
    pyStrip l = [] := by
  have h1 : l.dropWhile pyIsSpace = [] := List.dropWhile_eq_nil_iff.mpr h
  simp [pyStrip, h1]

/-- The fixed input text of specification Scenario 1. -/
def scenario1Text : String :=
  "REPUBLIC OF INDIA PASSPORT Name: JOHN DOE Passport No: A1234567 Date of Birth: 15/06/1990"

/-! ### Claim theorems -/

/-- C1 (counterexample): with the engine available and both OCR passes
returning empty text (no placeholder or fallback substituted), the code does
NOT return `success = false` with error "No text could be extracted from the
image"; it returns `success = true` with no error field, refuting the claim
as stated. -/
theorem scenario3_counterexample :
    (process_document_function "ts" (OCRInput.tesseractOk "" "")).success = true ∧
    (process_document_function "ts" (OCRInput.tesseractOk "" "")).error = none := by
  decide

/-- C1 (amended): if the recognized text is empty or whitespace-only and no
placeholder or fallback text was substituted upstream (tesseract path, both
passes), `process_document_function` still succeeds: it classifies the text
as `unknown` with confidence 0.5, returns empty `extracted_text`, and emits
no error; the error message "No text could be extracted from the image"
exists on no code path. -/
theorem empty_text_still_succeeds (now t1 t2 : String)
    (h : ∀ c ∈ ocrText t1 t2, pyIsSpace c = true) :
    (process_document_function now (OCRInput.tesseractOk t1 t2)).success = true ∧
    (process_document_function now (OCRInput.tesseractOk t1 t2)).document_type
      = some "unknown" ∧
    (process_document_function now (OCRInput.tesseractOk t1 t2)).confidence
      = some 0.5 ∧
    (process_document_function now (OCRInput.tesseractOk t1 t2)).extracted_text
      = some "" ∧
    (process_document_function now (OCRInput.tesseractOk t1 t2)).error = none := by
  have hc := classify_allSpace _ h
  have hs := pyStrip_allSpace _ h
  simp [process_document_function, pipelineOnText, hc, hs, conf05_eq]

/-- C1 (witness): the amended theorem applied to a whitespace-only primary
pass and an empty retry. -/
theorem empty_text_still_succeeds_w :
    (∀ c ∈ ocrText " " "", pyIsSpace c = true) ∧
    ((process_document_function "ts" (OCRInput.tesseractOk " " "")).success = true ∧
     (process_document_function "ts" (OCRInput.tesseractOk " " "")).document_type
       = some "unknown" ∧
     (process_document_function "ts" (OCRInput.tesseractOk " " "")).confidence
       = some 0.5 ∧
     (process_document_function "ts" (OCRInput.tesseractOk " " "")).extracted_text
       = some "" ∧
     (process_document_function "ts" (OCRInput.tesseractOk " " "")).error = none) :=
  ⟨by decide, empty_text_still_succeeds "ts" " " "" (by decide)⟩

set_option maxHeartbeats 2000000 in
/-- C2 (code bug): the `visa_number` pattern is declared in the source's
pattern table but no statement ever applies it, so `structured_data` never
carries a `visa_number` key — for any input, and in particular for Scenario
2's text, where the result is classified as visa with confidence 0.9 and
where the declared pattern would have matched "ABCD12345678" had it been
applied. -/
theorem visa_number_never_assigned :
    (∀ (now : String) (text : List Char) (src : String) (avail : Bool),
      ((pipelineOnText now text src avail).structured_data.map
        StructuredRecord.visa_number) = some none) ∧
    (pipelineOnText "ts" "VISA ENTRY PERMIT ABCD12345678".data "tesseract"
        true).document_type = some "visa" ∧
    (pipelineOnText "ts" "VISA ENTRY PERMIT ABCD12345678".data "tesseract"
        true).confidence = some 0.9 ∧
    ((pipelineOnText "ts" "VISA ENTRY PERMIT ABCD12345678".data "tesseract"
        true).structured_data.map StructuredRecord.visa_number) = some none ∧
    (reSearch visaPat "VISA ENTRY PERMIT ABCD12345678".data).map String.mk
      = some "ABCD12345678" := by
  refine ⟨fun now text src avail => by simp [pipelineOnText], by decide,
    by rw [← conf09_eq]; decide, by decide, by decide⟩

set_option maxHeartbeats 4000000 in
/-- C3 (counterexample): on Scenario 1's fixed text the name heuristic
matches the capitalized pair "Passport No", and all-caps "JOHN DOE" cannot
match `[A-Z][a-z]+`, so `names_found` does not include "JOHN DOE". -/
theorem scenario1_names_counterexample :
    ((pipelineOnText "ts" scenario1Text.data "tesseract" true).structured_data.map
      StructuredRecord.names_found) = some (some ["Passport No"]) ∧
    "JOHN DOE" ∉ (["Passport No"] : List String) := by
  exact ⟨by decide, by decide⟩

set_option maxHeartbeats 4000000 in
/-- C3 (amended): on Scenario 1's fixed text the pipeline produces
`document_type = "passport"`, confidence 0.9,
`passport_number = "A1234567"`, `dates_found = ["15/06/1990"]`, and
`names_found = ["Passport No"]` (the capitalization heuristic's false
positive; "JOHN DOE" is all-caps and is not matched). -/
theorem scenario1_eval :
    (pipelineOnText "ts" scenario1Text.data "tesseract" true).document_type
      = some "passport" ∧
    (pipelineOnText "ts" scenario1Text.data "tesseract" true).confidence
      = some 0.9 ∧
    ((pipelineOnText "ts" scenario1Text.data "tesseract" true).structured_data.map
      StructuredRecord.passport_number) = some (some "A1234567") ∧
    ((pipelineOnText "ts" scenario1Text.data "tesseract" true).structured_data.map
      StructuredRecord.dates_found) = some (some ["15/06/1990"]) ∧
    ((pipelineOnText "ts" scenario1Text.data "tesseract" true).structured_data.map
      StructuredRecord.names_found) = some (some ["Passport No"]) := by
  refine ⟨by decide, by rw [← conf09_eq]; decide, by decide, by decide, by decide⟩

/-- C4: every result is well-formed — either `success = true` with
`document_type`, `confidence`, `extracted_text` and `structured_data`
present and no `error` key, or `success = false` with an `error` string and
none of the success-side keys; no exception escapes and the field sets are
never mixed. -/
theorem result_shape_exclusive (now : String) (inp : OCRInput) :
    ((process_document_function now inp).success = true ∧
     (process_document_function now inp).document_type.isSome = true ∧
     (process_document_function now inp).confidence.isSome = true ∧
     (process_document_function now inp).extracted_text.isSome = true ∧
     (process_document_function now inp).structured_data.isSome = true ∧
     (process_document_function now inp).error = none) ∨
    ((process_document_function now inp).success = false ∧
     (process_document_function now inp).error.isSome = true ∧
     (process_document_function now inp).document_type = none ∧
     (process_document_function now inp).confidence = none ∧
     (process_document_function now inp).extracted_text = none ∧
     (process_document_function now inp).structured_data = none) := by
  cases inp <;> simp [process_document_function, pipelineOnText]

/-- C6: classification is first-match-in-order — any recognized text whose
lower-casing contains a rule-1 keyword ("passport", "republic", or "travel
document") yields `document_type = "passport"` with confidence 0.9,
regardless of which later-rule keywords (such as "visa") also occur. -/
theorem rule1_first_match (now : String) (text : List Char) (src : String)
    (avail : Bool)
    (h : containsWord (text.map Char.toLower) "passport" = true ∨
         containsWord (text.map Char.toLower) "republic" = true ∨
         containsWord (text.map Char.toLower) "travel document" = true) :
    (pipelineOnText now text src avail).document_type = some "passport" ∧
    (pipelineOnText now text src avail).confidence = some 0.9 := by
  have hany : kw1.any (containsWord (text.map Char.toLower)) = true := by
    simp only [kw1, List.any_cons, List.any_nil, Bool.or_eq_true]
    tauto
  simp [pipelineOnText, classifyDoc, hany, conf09_eq]

/-- C6 (witness): text containing both "passport" and "visa" keywords still
classifies as `passport`. -/
theorem rule1_first_match_w :
    (containsWord ("PASSPORT and visa".data.map Char.toLower) "passport" = true ∨
     containsWord ("PASSPORT and visa".data.map Char.toLower) "republic" = true ∨
     containsWord ("PASSPORT and visa".data.map Char.toLower) "travel document"
       = true) ∧
    ((pipelineOnText "ts" "PASSPORT and visa".data "tesseract" true).document_type
       = some "passport" ∧
     (pipelineOnText "ts" "PASSPORT and visa".data "tesseract" true).confidence
       = some 0.9) :=
  ⟨by decide,
   rule1_first_match "ts" "PASSPORT and visa".data "tesseract" true (by decide)⟩

/-- Confidence lookup table as the specification states it: passport and
visa map to 0.9; permit, certificate and identification map to 0.8;
anything else maps to 0.5. -/
def confTable (dt : String) : ℚ :=
  if dt = "passport" ∨ dt = "visa" then 0.9
  else if dt = "permit" ∨ dt = "certificate" ∨ dt = "identification" then 0.8
  else 0.5

/-- Pipeline-level core of the confidence invariant: on every success path
the confidence is the table value of the document type, and the structured
record repeats both. -/
theorem pipeline_conf (now : String) (text : List Char) (src : String)
    (avail : Bool) (dt : String) (c : ℚ) (sd : StructuredRecord)
    (hdt : (pipelineOnText now text src avail).document_type = some dt)
    (hc : (pipelineOnText now text src avail).confidence = some c)
    (hsd : (pipelineOnText now text src avail).structured_data = some sd) :
    c = confTable dt ∧ (c = 0.9 ∨ c = 0.8 ∨ c = 0.5) ∧
    sd.document_type = dt ∧ sd.confidence = c := by
  rcases classifyDoc_mem text with h | h | h | h | h | h <;>
    (simp only [pipelineOnText, h, Option.some.injEq] at hdt hc hsd
     subst hdt
     subst hc
     subst hsd
     simp [confTable, conf09_eq, conf08_eq, conf05_eq])

/-- C5: for every successful result, confidence is one of 0.9, 0.8, 0.5 and
is fully determined by the document type via the fixed lookup, and the
structured record's `document_type` and `confidence` equal the top-level
fields. -/
theorem conf_determined (now : String) (inp : OCRInput) (dt : String) (c : ℚ)
    (sd : StructuredRecord)
    (hdt : (process_document_function now inp).document_type = some dt)
    (hc : (process_document_function now inp).confidence = some c)
    (hsd : (process_document_function now inp).structured_data = some sd) :
    c = confTable dt ∧ (c = 0.9 ∨ c = 0.8 ∨ c = 0.5) ∧
    sd.document_type = dt ∧ sd.confidence = c := by
  cases inp with
  | imageError b msg => simp [process_document_function] at hdt
  | tesseractOk t1 t2 =>
    simp only [process_document_function] at hdt hc hsd
    exact pipeline_conf _ _ _ _ _ _ _ hdt hc hsd
  | tesseractError msg =>
    simp only [process_document_function] at hdt hc hsd
    exact pipeline_conf _ _ _ _ _ _ _ hdt hc hsd
  | noTesseract =>
    simp only [process_document_function] at hdt hc hsd
    exact pipeline_conf _ _ _ _ _ _ _ hdt hc hsd

/-- Structured record produced for the bare recognized text "passport". -/
def passportSample : StructuredRecord :=
  StructuredRecord.mk "passport" "ts" 8 conf09 "tesseract" true none none
    none none none

/-- C5 (witness): the confidence invariant at the concrete input whose
primary OCR pass reads "passport". -/
theorem conf_determined_w :
    conf09 = confTable "passport" ∧
    (conf09 = 0.9 ∨ conf09 = 0.8 ∨ conf09 = 0.5) ∧
    passportSample.document_type = "passport" ∧
    passportSample.confidence = conf09 :=
  conf_determined "ts" (OCRInput.tesseractOk "passport" "") "passport" conf09
    passportSample (by decide) (by decide) (by decide)

/-- C7: `extracted_text` never exceeds 2000 characters, while
`raw_text_length` is the character count of the untruncated recognized text
and can exceed 2000 (witnessed by a 2001-character text). -/
theorem truncation_policy :
    (∀ (now : String) (text : List Char) (src : String) (avail : Bool),
      ((pipelineOnText now text src avail).extracted_text.getD "").length
        ≤ 2000 ∧
      ((pipelineOnText now text src avail).structured_data.map
        StructuredRecord.raw_text_length) = some text.length) ∧
    ((pipelineOnText "ts" (List.replicate 2001 'a') "tesseract"
        true).structured_data.map StructuredRecord.raw_text_length)
      = some 2001 ∧
    2000 < 2001 := by
  refine ⟨fun now text src avail => ⟨?_, ?_⟩, ?_, by norm_num⟩
  · simp only [pipelineOnText, Option.getD_some, String.length_mk,
      List.length_take]
    omega
  · simp [pipelineOnText]
  · simp only [pipelineOnText, Option.map_some', List.length_replicate]

/-- Every match returned by the findall scan starts at or after the scan's
current position. -/
theorem findallAux_start_ge (pat : List RTok) (s : List Char) :
    ∀ (fuel i : Nat), ∀ pr ∈ findallAux pat s fuel i, i ≤ pr.1 := by
  intro fuel
  induction fuel with
  | zero => intro i pr h; simp [findallAux] at h
  | succ n ih =>
    intro i pr h
    simp only [findallAux] at h
    cases hm : matchToks s pat i with
    | some e =>
      rw [hm] at h
      rcases List.mem_cons.mp h with rfl | hmem
      · exact le_refl _
      · have := ih _ _ hmem
        refine le_trans ?_ this
        split_ifs <;> omega
    | none =>
      rw [hm] at h
      exact le_trans (Nat.le_succ i) (ih _ _ h)

/-- The findall scan returns matches in strictly increasing start order:
first-occurrence order in the text. -/
theorem findallAux_chain (pat : List RTok) (s : List Char) :
    ∀ (fuel i : Nat),
      List.Chain' (fun a b : Nat × Nat => a.1 < b.1) (findallAux pat s fuel i) := by
  intro fuel
  induction fuel with
  | zero => intro i; simp [findallAux]
  | succ n ih =>
    intro i
    simp only [findallAux]
    cases hm : matchToks s pat i with
    | some e =>
      rw [List.chain'_cons']
      refine ⟨?_, ih _⟩
      intro b hb
      have hbmem := List.mem_of_mem_head? hb
      have hge := findallAux_start_ge pat s n _ b hbmem
      have : i < (if i < e then e else i + 1) := by split_ifs <;> omega
      exact lt_of_lt_of_le this hge
    | none => exact ih _

/-- C8: on every success path, `dates_found` and `names_found` are exactly
the first-3 and first-2 truncations of the findall results, hence capped at
3 and 2; they are absent (not empty) when the pattern has no match and
non-empty when present; and the findall scan lists matches in
first-occurrence (strictly increasing start position) order. -/
theorem extraction_caps (now : String) (text : List Char) (src : String)
    (avail : Bool) (sd : StructuredRecord)
    (hsd : (pipelineOnText now text src avail).structured_data = some sd) :
    sd.dates_found = (if reFindall datePat text = [] then none
      else some (((reFindall datePat text).take 3).map String.mk)) ∧
    sd.names_found = (if reFindall namePat text = [] then none
      else some (((reFindall namePat text).take 2).map String.mk)) ∧
    sd.dates_found ≠ some [] ∧
    sd.names_found ≠ some [] ∧
    (sd.dates_found.getD []).length ≤ 3 ∧
    (sd.names_found.getD []).length ≤ 2 ∧
    List.Chain' (· < ·) ((reFindallPos datePat text).map Prod.fst) ∧
    List.Chain' (· < ·) ((reFindallPos namePat text).map Prod.fst) := by
  simp only [pipelineOnText, Option.some.injEq] at hsd
  subst hsd
  refine ⟨?_, ?_, ?_, ?_, ?_, ?_, ?_, ?_⟩
  · cases hD : reFindall datePat text with
    | nil => simp [hD]
    | cons a l => simp [hD]
  · cases hN : reFindall namePat text with
    | nil => simp [hN]
    | cons a l => simp [hN]
  · cases hD : reFindall datePat text with
    | nil => simp [hD]
    | cons a l => simp [hD]
  · cases hN : reFindall namePat text with
    | nil => simp [hN]
    | cons a l => simp [hN]
  · cases hD : reFindall datePat text with
    | nil => simp [hD]
    | cons a l => simp [hD, List.length_take]
  · cases hN : reFindall namePat text with
    | nil => simp [hN]
    | cons a l => simp [hN, List.length_take]
  · exact (List.chain'_map Prod.fst).mpr (findallAux_chain datePat text _ _)
  · exact (List.chain'_map Prod.fst).mpr (findallAux_chain namePat text _ _)

/-- Structured record produced for the recognized text "1/2/2024 Ab Cd". -/
def capsSample : StructuredRecord :=
  StructuredRecord.mk "unknown" "ts" 14 conf05 "tesseract" true none none
    (some ["1/2/2024"]) (some ["Ab Cd"]) none

/-- C8 (witness): the caps at a concrete input with one date and one name
match. -/
theorem extraction_caps_w :
    (capsSample.dates_found.getD []).length ≤ 3 ∧
    (capsSample.names_found.getD []).length ≤ 2 ∧
    capsSample.dates_found ≠ some [] := by
  have h := extraction_caps "ts" "1/2/2024 Ab Cd".data "tesseract" true
    capsSample (by decide)
  exact ⟨h.2.2.2.2.1, h.2.2.2.2.2.1, h.2.2.1⟩

/-- C9: every success path's structured record carries `ocr_source` equal to
the provenance tag of the input kind — one of exactly "tesseract" (live
engine, including the English-only retry), "fallback" (engine present but
the call raised) or "demo" (engine unavailable) — and `tesseract_available`
equal to the process-wide engine-availability flag. -/
theorem provenance_fields (now : String) (inp : OCRInput)
    (sd : StructuredRecord)
    (hsd : (process_document_function now inp).structured_data = some sd) :
    (sd.ocr_source = "tesseract" ∨ sd.ocr_source = "fallback" ∨
      sd.ocr_source = "demo") ∧
    sd.ocr_source = ocrSourceOf inp ∧
    sd.tesseract_available = tesseractAvailOf inp := by
  cases inp with
  | imageError b msg => simp [process_document_function] at hsd
  | tesseractOk t1 t2 =>
    simp only [process_document_function, pipelineOnText,
      Option.some.injEq] at hsd
    subst hsd
    exact ⟨Or.inl rfl, rfl, rfl⟩
  | tesseractError msg =>
    simp only [process_document_function, pipelineOnText,
      Option.some.injEq] at hsd
    subst hsd
    exact ⟨Or.inr (Or.inl rfl), rfl, rfl⟩
  | noTesseract =>
    simp only [process_document_function, pipelineOnText,
      Option.some.injEq] at hsd
    subst hsd
    exact ⟨Or.inr (Or.inr rfl), rfl, rfl⟩

/-- Structured record produced by the fallback path for OCR error "x". -/
def fallbackSample : StructuredRecord :=
  StructuredRecord.mk "unknown" "ts" 40 conf05 "fallback" true none none
    none none none

/-- C9 (witness): the provenance invariant at a concrete fallback input. -/
theorem provenance_fields_w :
    (fallbackSample.ocr_source = "tesseract" ∨
     fallbackSample.ocr_source = "fallback" ∨
     fallbackSample.ocr_source = "demo") ∧
    fallbackSample.ocr_source = ocrSourceOf (OCRInput.tesseractError "x") ∧
    fallbackSample.tesseract_available
      = tesseractAvailOf (OCRInput.tesseractError "x") :=
  provenance_fields "ts" (OCRInput.tesseractError "x") fallbackSample
    (by decide)

/-- C10: `extracted_text` is exactly the first 2000 characters of the
stripped recognized text (strip before truncate), hence a prefix of the
stripped text; and its length can be smaller than `raw_text_length` even
when the latter is at most 2000, because `raw_text_length` counts the
unstripped text (witnessed by the 3-character text " a "). -/
theorem strip_before_truncate :
    (∀ (now : String) (text : List Char) (src : String) (avail : Bool),
      (pipelineOnText now text src avail).extracted_text =
        some (String.mk ((pyStrip text).take 2000)) ∧
      (pyStrip text).take 2000 <+: pyStrip text) ∧
    ((pipelineOnText "ts" " a ".data "demo" false).extracted_text.getD
      "").length = 1 ∧
    ((pipelineOnText "ts" " a ".data "demo" false).structured_data.map
      StructuredRecord.raw_text_length) = some 3 ∧
    (3 : Nat) ≤ 2000 := by
  refine ⟨fun now text src avail =>
      ⟨by simp [pipelineOnText], List.take_prefix _ _⟩,
    by decide, by decide, by norm_num⟩

end ImmigrationOCR
